import Mathlib

/-
  Shallow embedding of the loan ledger engine of the repository
  (bank_system/loans: models.py, serializers.py, views.py).

  Monetary values are 2-decimal fixed-point Decimals in the source; here
  they are integers counting cents.  The interest rate has 2 decimal
  places; here it is an integer counting hundredths of a percent.
  Quantize with ROUND_HALF_UP on a nonnegative exact quotient a/b is
  floor((2a+b)/(2b)), which is roundHalfUp below; the Decimal divisions
  in the source are exact to far more digits than the final 2-decimal
  quantize needs for all representable field values, so a single half-up
  rounding of the exact quotient is faithful.
-/

inductive LoanStatus where
  | ACTIVE
  | COMPLETED
  | DEFAULTED
deriving DecidableEq, Inhabited

inductive PaymentType where
  | EMI
  | LUMP_SUM
deriving DecidableEq, Inhabited

/-- Validation failures of loan creation (Loan.clean in models.py). -/
inductive CreateError where
  | InvalidAmount
  | InvalidPeriod
  | InvalidRate
deriving DecidableEq, Inhabited

/-- Validation failures of payment processing (PaymentCreateSerializer in
serializers.py and Payment.save in models.py).  NoRemainingBalance is the
serializer check "Loan has no remaining balance". -/
inductive PayError where
  | InvalidAmount
  | LoanInactive
  | NoRemainingBalance
  | AmountExceedsBalance
  | AllInstallmentsPaid
  | EmiAmountMismatch
deriving DecidableEq, Inhabited

/-- The Loan model (models.py, class Loan).  principal, amounts and
balances are in cents; rateBp is the annual rate in hundredths of a
percent (2-decimal percent); periodYears, totalEmis, emisPaid are the
integer fields of the model. -/
structure Loan where
  principal : Int
  periodYears : Int
  rateBp : Int
  totalInterest : Int
  totalAmount : Int
  monthlyEmi : Int
  amountPaid : Int
  remainingBalance : Int
  totalEmis : Int
  emisPaid : Int
  status : LoanStatus
deriving DecidableEq, Inhabited

/-- Half-up rounding of the exact quotient a / b to an integer, for
nonnegative a and positive b: floor((2a+b)/(2b)).  This is what
Decimal.quantize(Decimal(0.01), ROUND_HALF_UP) does to an exact
nonnegative quotient, expressed in cents. -/
def roundHalfUp (a b : Int) : Int :=
  (2 * a + b) / (2 * b)

/-- Loan.clean in models.py.  The source guards each check with Python
truthiness: "if self.principal_amount and self.principal_amount <= 0",
so a zero principal or a zero period skips its own check (Decimal zero
and int zero are falsy). -/
def cleanLoan (P N R : Int) : Except CreateError Unit :=
  if P ≠ 0 ∧ P ≤ 0 then .error .InvalidAmount
  else if N ≠ 0 ∧ N ≤ 0 then .error .InvalidPeriod
  else if R < 0 then .error .InvalidRate
  else .ok ()

/-- Loan.save in models.py on a fresh loan (total_amount is None):
derives total_interest = round2(P * N * R / 100), total_amount =
round2(P + total_interest) (exact, both operands have 2 decimals),
total_emis = N * 12, monthly_emi = round2(total_amount / total_emis)
when total_emis > 0 else total_amount, remaining_balance = total_amount,
then runs full_clean (Loan.clean) before persisting; a clean failure
persists nothing.  In cents, P * N * R / 100 currency units is
P * N * R / 10000 cents, rounded half-up. -/
def createLoan (P N R : Int) : Except CreateError Loan :=
  match cleanLoan P N R with
  | .error e => .error e
  | .ok _ =>
    .ok { principal := P
          periodYears := N
          rateBp := R
          totalInterest := roundHalfUp (P * N * R) 10000
          totalAmount := P + roundHalfUp (P * N * R) 10000
          monthlyEmi :=
            if N * 12 > 0 then
              roundHalfUp (P + roundHalfUp (P * N * R) 10000) (N * 12)
            else P + roundHalfUp (P * N * R) 10000
          amountPaid := 0
          remainingBalance := P + roundHalfUp (P * N * R) 10000
          totalEmis := N * 12
          emisPaid := 0
          status := .ACTIVE }

/-- LoanCalculator as the specification words it (spec 4.1), for
refinement against createLoan: total_interest = round2(P*N*R/100),
total_amount = round2(P + total_interest), total_installments = N*12,
installment_amount = round2(total_amount / total_installments) if
total_installments > 0 else total_amount.  Returned as
(total_interest, total_amount, total_installments, installment_amount). -/
def loanCalculatorSpec (P N R : Int) : Int × Int × Int × Int :=
  (roundHalfUp (P * N * R) 10000,
   P + roundHalfUp (P * N * R) 10000,
   N * 12,
   if N * 12 > 0 then roundHalfUp (P + roundHalfUp (P * N * R) 10000) (N * 12)
   else P + roundHalfUp (P * N * R) 10000)

/-- PaymentCreateSerializer in serializers.py, as run by make_payment in
views.py.  DRF validates fields first: amount has min_value 0.01, so a
non-positive amount fails before the cross-field validate method runs.
Then validate() checks, in order: loan status ACTIVE, remaining balance
positive, amount not exceeding the remaining balance, and for EMI
payments that not all EMIs are paid. -/
def validateSerializer (l : Loan) (t : PaymentType) (a : Int) : Except PayError Unit :=
  if a < 1 then .error .InvalidAmount
  else if l.status ≠ .ACTIVE then .error .LoanInactive
  else if l.remainingBalance ≤ 0 then .error .NoRemainingBalance
  else if l.remainingBalance < a then .error .AmountExceedsBalance
  else if t = .EMI ∧ l.totalEmis ≤ l.emisPaid then .error .AllInstallmentsPaid
  else .ok ()

/-- Clamp to zero: "if loan.remaining_balance < 0: loan.remaining_balance
= 0" in Payment.save. -/
def clamp0 (x : Int) : Int :=
  if x < 0 then 0 else x

/-- Completion check at the end of Payment.save: if the remaining balance
is at most 0.01 (one cent), mark the loan COMPLETED, force the remaining
balance to 0 and the EMIs paid to total_emis.  Returns the updated loan
and the balance_after_payment snapshot recorded on the Payment row,
which the source sets after this check. -/
def completeCheck (l : Loan) : Loan × Int :=
  if l.remainingBalance ≤ 1 then
    ({ l with status := .COMPLETED, remainingBalance := 0, emisPaid := l.totalEmis }, 0)
  else (l, l.remainingBalance)

/-- Payment.save in models.py on a new payment: re-checks that the loan
is ACTIVE and that the amount does not exceed the remaining balance,
adds the amount to amount_paid and subtracts it from remaining_balance
(the quantize calls are exact on 2-decimal operands), clamps the balance
at zero, then for EMI requires the amount to equal monthly_emi exactly
(raising before any row is persisted, so the transaction leaves the
stored loan unchanged) and advances emis_paid by min with total_emis;
for LUMP_SUM, only when monthly_emi > 0, advances emis_paid by the
truncating Decimal division amount // monthly_emi, capped at
total_emis (Int division here coincides with the truncating Python //
because both operands are positive under the guard); finally runs the
completion check.  An error result models the rolled-back transaction:
the persisted loan is unchanged. -/
def paymentSave (l : Loan) (t : PaymentType) (a : Int) : Except PayError (Loan × Int) :=
  if l.status ≠ .ACTIVE then .error .LoanInactive
  else if l.remainingBalance < a then .error .AmountExceedsBalance
  else
    match t with
    | .EMI =>
      if a ≠ l.monthlyEmi then .error .EmiAmountMismatch
      else .ok (completeCheck
        { l with amountPaid := l.amountPaid + a
                 remainingBalance := clamp0 (l.remainingBalance - a)
                 emisPaid := min (l.emisPaid + 1) l.totalEmis })
    | .LUMP_SUM =>
      .ok (completeCheck
        { l with amountPaid := l.amountPaid + a
                 remainingBalance := clamp0 (l.remainingBalance - a)
                 emisPaid :=
                   if 0 < l.monthlyEmi then
                     min (l.emisPaid + a / l.monthlyEmi) l.totalEmis
                   else l.emisPaid })

/-- make_payment in views.py: serializer validation, then
Payment.objects.create which runs Payment.save inside one transaction;
any raised ValidationError rolls the transaction back, so an error
leaves the loan as it was.  Returns the post-payment loan and the
balance_after_payment snapshot. -/
def makePayment (l : Loan) (t : PaymentType) (a : Int) : Except PayError (Loan × Int) :=
  match validateSerializer l t a with
  | .error e => .error e
  | .ok _ => paymentSave l t a

/-- Post-payment EMI counter before the completion check, as Payment.save
computes it for each payment type. -/
def newEmis (l : Loan) (t : PaymentType) (a : Int) : Int :=
  match t with
  | .EMI => min (l.emisPaid + 1) l.totalEmis
  | .LUMP_SUM =>
    if 0 < l.monthlyEmi then min (l.emisPaid + a / l.monthlyEmi) l.totalEmis
    else l.emisPaid

/-- The first validation failure of the whole payment pipeline, in the
order the source performs the checks: DRF amount field, then the
serializer validate method, then the EMI equality check inside
Payment.save. -/
def firstError (l : Loan) (t : PaymentType) (a : Int) : Option PayError :=
  if a < 1 then some .InvalidAmount
  else if l.status ≠ .ACTIVE then some .LoanInactive
  else if l.remainingBalance ≤ 0 then some .NoRemainingBalance
  else if l.remainingBalance < a then some .AmountExceedsBalance
  else if t = .EMI ∧ l.totalEmis ≤ l.emisPaid then some .AllInstallmentsPaid
  else if t = .EMI ∧ a ≠ l.monthlyEmi then some .EmiAmountMismatch
  else none

/-- The successful-payment result of Payment.save: updated totals,
clamped balance, advanced EMI counter, then the completion check. -/
def applyResult (l : Loan) (t : PaymentType) (a : Int) : Loan × Int :=
  completeCheck
    { l with amountPaid := l.amountPaid + a
             remainingBalance := clamp0 (l.remainingBalance - a)
             emisPaid := newEmis l t a }

/-- Apply one payment, keeping only the loan state. -/
def applyPaymentL (l : Loan) (p : PaymentType × Int) : Except PayError Loan :=
  (makePayment l p.1 p.2).map (fun r => r.1)

/-- Apply a sequence of payments in order, stopping at the first error. -/
def runPayments (l : Loan) (ps : List (PaymentType × Int)) : Except PayError Loan :=
  ps.foldlM applyPaymentL l

deriving instance DecidableEq for Except

def isOk {ε α : Type} : Except ε α → Bool
  | .ok _ => true
  | .error _ => false

/-- Extract the loan of a successful creation (only used where success is
separately asserted). -/
def mkLoan (P N R : Int) : Loan :=
  (createLoan P N R).toOption.getD default

/-- Extract the loan after a sequence of payments (only used where
success is separately asserted). -/
def runPay (l : Loan) (ps : List (PaymentType × Int)) : Loan :=
  (runPayments l ps).toOption.getD default

example : mkLoan 10000000 2 1000 =
    { principal := 10000000, periodYears := 2,
      rateBp := 1000, totalInterest := 2000000, totalAmount := 12000000,
      monthlyEmi := 500000, amountPaid := 0, remainingBalance := 12000000,
      totalEmis := 24, emisPaid := 0, status := .ACTIVE } := by decide

example : (mkLoan 10000 1 0).monthlyEmi = 833 := by decide

example : isOk (runPayments (mkLoan 10000 1 0) [(.LUMP_SUM, 9999)]) = true := by decide

example : (runPay (mkLoan 10000 1 0) [(.LUMP_SUM, 9999)]).amountPaid = 9999 := by decide

example : (runPay (mkLoan 10000 1 0) [(.LUMP_SUM, 9999)]).remainingBalance = 0 := by decide

/-- Total characterization of the payment pipeline: makePayment returns
the first failing check of firstError, and on success the applyResult
state. -/
theorem makePayment_eq (l : Loan) (t : PaymentType) (a : Int) :
    makePayment l t a =
      match firstError l t a with
      | some e => .error e
      | none => .ok (applyResult l t a) := by
  by_cases h1 : a < 1
  · simp [makePayment, validateSerializer, firstError, h1]
  by_cases h2 : l.status = .ACTIVE
  case neg =>
    simp [makePayment, validateSerializer, firstError, h1, h2]
  by_cases h3 : l.remainingBalance ≤ 0
  · simp [makePayment, validateSerializer, firstError, h1, h2, h3]
  by_cases h4 : l.remainingBalance < a
  · simp [makePayment, validateSerializer, firstError, h1, h2, h3, h4]
  cases t with
  | EMI =>
    by_cases h5 : l.totalEmis ≤ l.emisPaid
    · simp [makePayment, validateSerializer, paymentSave, firstError, h1, h2, h3, h4, h5]
    by_cases h6 : a = l.monthlyEmi
    · subst h6
      simp [makePayment, validateSerializer, paymentSave, firstError, applyResult,
            newEmis, h1, h2, h3, h4, h5]
    · simp [makePayment, validateSerializer, paymentSave, firstError, h1, h2, h3, h4, h5, h6]
  | LUMP_SUM =>
    simp [makePayment, validateSerializer, paymentSave, firstError, applyResult,
          newEmis, h1, h2, h3, h4]

/-- Inversion of a successful payment: the checks that must have passed
and the exact post-payment state, split on whether the completion clamp
fired. -/
theorem makePayment_ok (l : Loan) (t : PaymentType) (a : Int) (l2 : Loan) (b : Int)
    (h : makePayment l t a = .ok (l2, b)) :
    1 ≤ a ∧ a ≤ l.remainingBalance ∧ 0 < l.remainingBalance ∧ l.status = .ACTIVE ∧
    (t = .EMI → a = l.monthlyEmi ∧ l.emisPaid < l.totalEmis) ∧
    l2.principal = l.principal ∧ l2.periodYears = l.periodYears ∧
    l2.rateBp = l.rateBp ∧ l2.totalInterest = l.totalInterest ∧
    l2.totalAmount = l.totalAmount ∧ l2.monthlyEmi = l.monthlyEmi ∧
    l2.totalEmis = l.totalEmis ∧ l2.amountPaid = l.amountPaid + a ∧
    (if l.remainingBalance - a ≤ 1 then
        l2.status = .COMPLETED ∧ l2.remainingBalance = 0 ∧
        l2.emisPaid = l.totalEmis ∧ b = 0
      else
        l2.status = .ACTIVE ∧ l2.remainingBalance = l.remainingBalance - a ∧
        l2.emisPaid = newEmis l t a ∧ b = l.remainingBalance - a) := by
  rw [makePayment_eq] at h
  cases hfe : firstError l t a with
  | some e => rw [hfe] at h; exact Except.noConfusion h
  | none =>
    rw [hfe] at h
    have hr : applyResult l t a = (l2, b) := Except.ok.inj h
    unfold firstError at hfe
    split_ifs at hfe with h1 h2 h3 h4 h5 h6
    have hstat : l.status = .ACTIVE := not_not.mp h2
    have hemi : t = .EMI → a = l.monthlyEmi ∧ l.emisPaid < l.totalEmis := by
      intro ht
      constructor
      · by_contra hne
        exact h6 ⟨ht, hne⟩
      · by_contra hle
        exact h5 ⟨ht, by omega⟩
    have hclamp : clamp0 (l.remainingBalance - a) = l.remainingBalance - a := by
      unfold clamp0
      rw [if_neg (by omega)]
    have hl2 : l2 = (applyResult l t a).1 := by rw [hr]
    have hb : b = (applyResult l t a).2 := by rw [hr]
    subst hl2
    subst hb
    unfold applyResult completeCheck
    simp only [hclamp]
    refine ⟨by omega, by omega, by omega, hstat, hemi, ?_⟩
    by_cases hc : l.remainingBalance - a ≤ 1
    · rw [if_pos (by simpa using hc), if_pos hc]
      simp
    · rw [if_neg (by simpa using hc), if_neg hc]
      simp [hstat]

/-- Claim C1, counterexample: on the loan with principal 100.00, period
1 year, rate 0 (total 100.00, 12 installments of 8.33), one lump-sum
payment of 99.99 is applied successfully, triggers the completion clamp
(remaining 0.01 forced to 0), and afterwards amount_paid +
remaining_balance = 99.99 differs from total_amount = 100.00, refuting
the claim on its completion path. -/
theorem C1_completion_drops_a_cent :
    isOk (runPayments (mkLoan 10000 1 0) [(.LUMP_SUM, 9999)]) = true ∧
    (runPay (mkLoan 10000 1 0) [(.LUMP_SUM, 9999)]).status = .COMPLETED ∧
    (runPay (mkLoan 10000 1 0) [(.LUMP_SUM, 9999)]).amountPaid +
      (runPay (mkLoan 10000 1 0) [(.LUMP_SUM, 9999)]).remainingBalance ≠
      (runPay (mkLoan 10000 1 0) [(.LUMP_SUM, 9999)]).totalAmount := by decide

/-- Claim C2, counterexample: on a COMPLETED loan, an ApplyPayment
request with amount 0 fails with InvalidAmount (the DRF field check
min_value 0.01 runs before the serializer status check), not with
LoanInactive as the claim states for every request. -/
theorem C2_inactive_zero_amount_error :
    (runPay (mkLoan 10000 1 0) [(.LUMP_SUM, 10000)]).status = .COMPLETED ∧
    makePayment (runPay (mkLoan 10000 1 0) [(.LUMP_SUM, 10000)]) .EMI 0 =
      .error .InvalidAmount := by decide

/-- Claim C4, code evaluation at the failing input: Loan.clean guards
each bound check behind Python truthiness, so principal 0.00 (with
period 2, rate 10.00) passes validation and a loan record with derived
fields (total_amount 0.00) is created, and a zero period is accepted
likewise, although the check messages say these values must be
positive. -/
theorem C4_zero_principal_accepted :
    createLoan 0 2 1000 =
      .ok { principal := 0, periodYears := 2, rateBp := 1000,
            totalInterest := 0, totalAmount := 0, monthlyEmi := 0,
            amountPaid := 0, remainingBalance := 0, totalEmis := 24,
            emisPaid := 0, status := .ACTIVE } ∧
    isOk (createLoan 10000000 0 1000) = true := by decide

/-- Claim C6, counterexample: on the loan with principal 1.00, period 1
year, rate 0 (installment amount 0.08), the reachable ACTIVE state
after lump sums of 0.95 and 0.03 has 11 installments paid and balance
0.02; a further validated lump sum of 0.02 triggers the completion
clamp and sets installments_paid to 12, not to the claimed
min(11 + floor(2/8), 12) = 11. -/
theorem C6_completion_overrides_count :
    (runPay (mkLoan 100 1 0) [(.LUMP_SUM, 95), (.LUMP_SUM, 3)]).status = .ACTIVE ∧
    (runPay (mkLoan 100 1 0) [(.LUMP_SUM, 95), (.LUMP_SUM, 3)]).monthlyEmi = 8 ∧
    (runPay (mkLoan 100 1 0) [(.LUMP_SUM, 95), (.LUMP_SUM, 3)]).emisPaid = 11 ∧
    (runPay (mkLoan 100 1 0) [(.LUMP_SUM, 95), (.LUMP_SUM, 3)]).remainingBalance = 2 ∧
    isOk (runPayments (mkLoan 100 1 0)
      [(.LUMP_SUM, 95), (.LUMP_SUM, 3), (.LUMP_SUM, 2)]) = true ∧
    (runPay (mkLoan 100 1 0)
      [(.LUMP_SUM, 95), (.LUMP_SUM, 3), (.LUMP_SUM, 2)]).emisPaid ≠
      min (11 + (2 : Int) / 8) 12 := by decide

/-- Claim C8, counterexample: on the loan with principal 1.00, period 1
year, rate 0, twelve EMI payments of 0.08 leave a reachable ACTIVE
state with all 12 installments paid and balance 0.04; an EMI request of
amount 0.03 (positive, within balance, different from the installment
amount 0.08) surfaces AllInstallmentsPaid, while the claimed order
surfaces EmiAmountMismatch first. -/
theorem C8_all_paid_before_mismatch :
    (runPay (mkLoan 100 1 0) (List.replicate 12 (PaymentType.EMI, (8 : Int)))).status
      = .ACTIVE ∧
    (runPay (mkLoan 100 1 0) (List.replicate 12 (PaymentType.EMI, (8 : Int)))).emisPaid
      = 12 ∧
    (runPay (mkLoan 100 1 0) (List.replicate 12 (PaymentType.EMI, (8 : Int)))).totalEmis
      = 12 ∧
    (runPay (mkLoan 100 1 0) (List.replicate 12 (PaymentType.EMI, (8 : Int)))).remainingBalance
      = 4 ∧
    (runPay (mkLoan 100 1 0) (List.replicate 12 (PaymentType.EMI, (8 : Int)))).monthlyEmi
      = 8 ∧
    makePayment (runPay (mkLoan 100 1 0) (List.replicate 12 (PaymentType.EMI, (8 : Int))))
      .EMI 3 = .error .AllInstallmentsPaid := by decide

/-- Claim C10, counterexample: the loan with principal 0.02, period 1
year, rate 0 has installment amount 0.00; a validated lump sum of 0.01
drives the balance to 0.01, the completion clamp fires, and
installments_paid jumps from 0 to 12 — the payment does not leave
installments_paid unchanged as the claim states. -/
theorem C10_completion_moves_count :
    (mkLoan 2 1 0).monthlyEmi = 0 ∧
    (mkLoan 2 1 0).emisPaid = 0 ∧
    isOk (makePayment (mkLoan 2 1 0) .LUMP_SUM 1) = true ∧
    (runPay (mkLoan 2 1 0) [(.LUMP_SUM, 1)]).emisPaid = 12 := by decide

/-- Claim C1 (amended): after every successfully applied payment on a
loan whose pre-state satisfies the sum invariant, amount_paid +
remaining_balance stays within one cent below total_amount, and equals
total_amount exactly whenever the loan is still ACTIVE; the shortfall
arises only when the completion clamp zeroes a residual of at most
0.01. -/
theorem C1_paid_plus_remaining_amended (l : Loan) (t : PaymentType) (a : Int)
    (l2 : Loan) (b : Int)
    (hinv : l.amountPaid + l.remainingBalance = l.totalAmount)
    (h : makePayment l t a = .ok (l2, b)) :
    l2.totalAmount - 1 ≤ l2.amountPaid + l2.remainingBalance ∧
    l2.amountPaid + l2.remainingBalance ≤ l2.totalAmount ∧
    (l2.status = .ACTIVE → l2.amountPaid + l2.remainingBalance = l2.totalAmount) := by
  obtain ⟨ha1, ha2, -, -, -, -, -, -, -, htot, -, -, hpaid, hres⟩ :=
    makePayment_ok l t a l2 b h
  by_cases hc : l.remainingBalance - a ≤ 1
  · rw [if_pos hc] at hres
    obtain ⟨hs, hr0, -, -⟩ := hres
    refine ⟨by omega, by omega, ?_⟩
    intro hact
    rw [hs] at hact
    exact LoanStatus.noConfusion hact
  · rw [if_neg hc] at hres
    obtain ⟨-, hrem, -, -⟩ := hres
    refine ⟨by omega, by omega, fun _ => by omega⟩

/-- Witness for C1 (amended) at the loan with principal 100.00, period
1 year, rate 0, after one EMI payment of 8.33. -/
theorem C1_paid_plus_remaining_amended_witness :
    (runPay (mkLoan 10000 1 0) [(.EMI, 833)]).totalAmount - 1 ≤
      (runPay (mkLoan 10000 1 0) [(.EMI, 833)]).amountPaid +
      (runPay (mkLoan 10000 1 0) [(.EMI, 833)]).remainingBalance ∧
    (runPay (mkLoan 10000 1 0) [(.EMI, 833)]).amountPaid +
      (runPay (mkLoan 10000 1 0) [(.EMI, 833)]).remainingBalance ≤
      (runPay (mkLoan 10000 1 0) [(.EMI, 833)]).totalAmount ∧
    ((runPay (mkLoan 10000 1 0) [(.EMI, 833)]).status = .ACTIVE →
      (runPay (mkLoan 10000 1 0) [(.EMI, 833)]).amountPaid +
        (runPay (mkLoan 10000 1 0) [(.EMI, 833)]).remainingBalance =
        (runPay (mkLoan 10000 1 0) [(.EMI, 833)]).totalAmount) :=
  C1_paid_plus_remaining_amended (mkLoan 10000 1 0) .EMI 833
    (runPay (mkLoan 10000 1 0) [(.EMI, 833)]) 9167 (by decide) (by decide)

/-- Claim C2 (amended): every ApplyPayment request on a loan that is not
ACTIVE fails — with InvalidAmount when the amount is below 0.01 (the
DRF field check runs first), with LoanInactive otherwise — and an error
result leaves the persisted loan unchanged, so a loan that has left
ACTIVE is never mutated, hence never returned to ACTIVE, by a payment. -/
theorem C2_inactive_rejected_amended (l : Loan) (t : PaymentType) (a : Int)
    (h : l.status ≠ .ACTIVE) :
    makePayment l t a = .error (if a < 1 then .InvalidAmount else .LoanInactive) := by
  rw [makePayment_eq]
  unfold firstError
  by_cases h1 : a < 1
  · rw [if_pos h1, if_pos h1]
  · rw [if_neg h1, if_pos h, if_neg h1]

/-- Witness for C2 (amended) at a COMPLETED loan and a positive amount. -/
theorem C2_inactive_rejected_amended_witness :
    makePayment (runPay (mkLoan 10000 1 0) [(.LUMP_SUM, 10000)]) .EMI 500 =
      .error (if (500 : Int) < 1 then .InvalidAmount else .LoanInactive) :=
  C2_inactive_rejected_amended (runPay (mkLoan 10000 1 0) [(.LUMP_SUM, 10000)])
    .EMI 500 (by decide)

/-- Claim C3: for an ACTIVE loan with installments remaining and a
proposed EMI payment of positive amount within the remaining balance,
the payment is accepted iff the amount equals the installment amount
exactly, and any other amount is rejected with EmiAmountMismatch; an
error result leaves the persisted loan unchanged. -/
theorem C3_emi_exact_amount_iff (l : Loan) (a : Int)
    (hact : l.status = .ACTIVE) (hrem : l.emisPaid < l.totalEmis)
    (hpos : 1 ≤ a) (hle : a ≤ l.remainingBalance) :
    (isOk (makePayment l .EMI a) = true ↔ a = l.monthlyEmi) ∧
    (a ≠ l.monthlyEmi → makePayment l .EMI a = .error .EmiAmountMismatch) := by
  by_cases ha : a = l.monthlyEmi
  · have hok : makePayment l .EMI a = .ok (applyResult l .EMI a) := by
      rw [makePayment_eq]
      unfold firstError
      rw [if_neg (by omega), if_neg (by simp [hact]), if_neg (by omega),
          if_neg (by omega), if_neg (by rintro ⟨-, hx⟩; omega),
          if_neg (by rintro ⟨-, hne⟩; exact hne ha)]
    refine ⟨⟨fun _ => ha, fun _ => by rw [hok]; rfl⟩, fun hne => absurd ha hne⟩
  · have herr : makePayment l .EMI a = .error .EmiAmountMismatch := by
      rw [makePayment_eq]
      unfold firstError
      rw [if_neg (by omega), if_neg (by simp [hact]), if_neg (by omega),
          if_neg (by omega), if_neg (by rintro ⟨-, hx⟩; omega),
          if_pos ⟨rfl, ha⟩]
    refine ⟨?_, fun _ => herr⟩
    rw [herr]
    simp [isOk, ha]

/-- Witness for C3 at the loan with principal 100.00, period 1 year,
rate 0, whose installment amount is 8.33. -/
theorem C3_emi_exact_amount_iff_witness :
    (isOk (makePayment (mkLoan 10000 1 0) .EMI 833) = true ↔
      (833 : Int) = (mkLoan 10000 1 0).monthlyEmi) ∧
    ((833 : Int) ≠ (mkLoan 10000 1 0).monthlyEmi →
      makePayment (mkLoan 10000 1 0) .EMI 833 = .error .EmiAmountMismatch) :=
  C3_emi_exact_amount_iff (mkLoan 10000 1 0) 833
    (by decide) (by decide) (by decide) (by decide)

/-- Claim C5: for every valid origination input (P > 0, N > 0, R >= 0)
loan creation succeeds and sets total_interest, total_amount,
total_installments and installment_amount exactly as the specification
formulas compute them (loanCalculatorSpec), with amount_paid 0, the
remaining balance equal to the total amount and status ACTIVE; and in
particular P=100000.00, N=2, R=10.00 yields total_interest=20000.00,
total_amount=120000.00, total_installments=24,
installment_amount=5000.00. -/
theorem C5_calculator_refines_spec :
    (∀ P N R : Int, 0 < P → 0 < N → 0 ≤ R →
      ∃ l, createLoan P N R = .ok l ∧
        (l.totalInterest, l.totalAmount, l.totalEmis, l.monthlyEmi) =
          loanCalculatorSpec P N R ∧
        l.amountPaid = 0 ∧ l.remainingBalance = l.totalAmount ∧
        l.emisPaid = 0 ∧ l.status = .ACTIVE) ∧
    mkLoan 10000000 2 1000 =
      { principal := 10000000, periodYears := 2, rateBp := 1000,
        totalInterest := 2000000, totalAmount := 12000000,
        monthlyEmi := 500000, amountPaid := 0, remainingBalance := 12000000,
        totalEmis := 24, emisPaid := 0, status := .ACTIVE } := by
  constructor
  · intro P N R hP hN hR
    have hc : cleanLoan P N R = .ok () := by
      unfold cleanLoan
      rw [if_neg (by rintro ⟨-, hx⟩; omega), if_neg (by rintro ⟨-, hx⟩; omega),
          if_neg (by omega)]
    refine ⟨{ principal := P, periodYears := N, rateBp := R,
              totalInterest := roundHalfUp (P * N * R) 10000,
              totalAmount := P + roundHalfUp (P * N * R) 10000,
              monthlyEmi :=
                if N * 12 > 0 then
                  roundHalfUp (P + roundHalfUp (P * N * R) 10000) (N * 12)
                else P + roundHalfUp (P * N * R) 10000,
              amountPaid := 0,
              remainingBalance := P + roundHalfUp (P * N * R) 10000,
              totalEmis := N * 12, emisPaid := 0, status := .ACTIVE },
            ?_, rfl, rfl, rfl, rfl, rfl⟩
    unfold createLoan
    rw [hc]
  · decide

/-- Witness for C5 at P=200.00, N=1, R=5.50. -/
theorem C5_calculator_refines_spec_witness :
    ∃ l, createLoan 20000 1 550 = .ok l ∧
      (l.totalInterest, l.totalAmount, l.totalEmis, l.monthlyEmi) =
        loanCalculatorSpec 20000 1 550 ∧
      l.amountPaid = 0 ∧ l.remainingBalance = l.totalAmount ∧
      l.emisPaid = 0 ∧ l.status = .ACTIVE :=
  C5_calculator_refines_spec.1 20000 1 550 (by decide) (by decide) (by decide)

/-- Claim C6 (amended): for an ACTIVE loan with positive installment
amount, a successfully applied lump-sum payment whose post-payment
balance exceeds the 0.01 completion tolerance sets installments_paid to
min(installments_paid + floor(amount / installment_amount),
total_installments); in particular an amount of k installments (k >= 0)
increments the counter by exactly k, capped at total_installments.
When the payment completes the loan, the completion clamp overrides
this and forces installments_paid to total_installments. -/
theorem C6_lump_sum_count_amended (l : Loan) (a : Int) (l2 : Loan) (b : Int)
    (hemi : 0 < l.monthlyEmi)
    (h : makePayment l .LUMP_SUM a = .ok (l2, b))
    (hnc : 1 < l.remainingBalance - a) :
    l2.emisPaid = min (l.emisPaid + a / l.monthlyEmi) l.totalEmis ∧
    ∀ k : Int, 0 ≤ k → a = k * l.monthlyEmi →
      l2.emisPaid = min (l.emisPaid + k) l.totalEmis := by
  obtain ⟨-, -, -, -, -, -, -, -, -, -, -, -, -, hres⟩ :=
    makePayment_ok l .LUMP_SUM a l2 b h
  rw [if_neg (by omega)] at hres
  obtain ⟨-, -, hep, -⟩ := hres
  have h1 : l2.emisPaid = min (l.emisPaid + a / l.monthlyEmi) l.totalEmis := by
    rw [hep]
    unfold newEmis
    rw [if_pos hemi]
  refine ⟨h1, fun k hk hak => ?_⟩
  rw [h1, hak, Int.mul_ediv_cancel _ (by omega)]

/-- Witness for C6 (amended): a lump sum of two installments (16.66) on
the loan with installment amount 8.33 advances the counter by 2. -/
theorem C6_lump_sum_count_amended_witness :
    (runPay (mkLoan 10000 1 0) [(.LUMP_SUM, 1666)]).emisPaid =
      min ((mkLoan 10000 1 0).emisPaid + 1666 / (mkLoan 10000 1 0).monthlyEmi)
        (mkLoan 10000 1 0).totalEmis ∧
    (runPay (mkLoan 10000 1 0) [(.LUMP_SUM, 1666)]).emisPaid =
      min ((mkLoan 10000 1 0).emisPaid + 2) (mkLoan 10000 1 0).totalEmis :=
  ⟨(C6_lump_sum_count_amended (mkLoan 10000 1 0) 1666
      (runPay (mkLoan 10000 1 0) [(.LUMP_SUM, 1666)]) 8334
      (by decide) (by decide) (by decide)).1,
   (C6_lump_sum_count_amended (mkLoan 10000 1 0) 1666
      (runPay (mkLoan 10000 1 0) [(.LUMP_SUM, 1666)]) 8334
      (by decide) (by decide) (by decide)).2 2 (by decide) (by decide)⟩

/-- Claim C7: every successfully applied payment (either type) whose
post-payment remaining balance is at most 0.01 drives the loan to
COMPLETED, forces the remaining balance to 0.00 and forces
installments_paid to total_installments, whatever the installment
division would have given. -/
theorem C7_completion_forces_terminal (l : Loan) (t : PaymentType) (a : Int)
    (l2 : Loan) (b : Int)
    (h : makePayment l t a = .ok (l2, b))
    (hc : l.remainingBalance - a ≤ 1) :
    l2.status = .COMPLETED ∧ l2.remainingBalance = 0 ∧
    l2.emisPaid = l2.totalEmis := by
  obtain ⟨-, -, -, -, -, -, -, -, -, -, -, hte, -, hres⟩ :=
    makePayment_ok l t a l2 b h
  rw [if_pos hc] at hres
  obtain ⟨hs, hr0, hep, -⟩ := hres
  exact ⟨hs, hr0, by rw [hep, hte]⟩

/-- Witness for C7: a lump sum of the full remaining balance 100.00
completes the loan although it nominally covers 12 installments by
division anyway; installments paid are forced to 12. -/
theorem C7_completion_forces_terminal_witness :
    (runPay (mkLoan 10000 1 0) [(.LUMP_SUM, 10000)]).status = .COMPLETED ∧
    (runPay (mkLoan 10000 1 0) [(.LUMP_SUM, 10000)]).remainingBalance = 0 ∧
    (runPay (mkLoan 10000 1 0) [(.LUMP_SUM, 10000)]).emisPaid =
      (runPay (mkLoan 10000 1 0) [(.LUMP_SUM, 10000)]).totalEmis :=
  C7_completion_forces_terminal (mkLoan 10000 1 0) .LUMP_SUM 10000
    (runPay (mkLoan 10000 1 0) [(.LUMP_SUM, 10000)]) 0 (by decide) (by decide)

/-- Claim C8 (amended): the payment pipeline checks, in the order the
source performs them — (1) amount at least 0.01 else InvalidAmount (DRF
field check), (2) status ACTIVE else LoanInactive, (3) remaining
balance positive else NoRemainingBalance, (4) amount within the
remaining balance else AmountExceedsBalance, (5) for EMI, installments
remaining else AllInstallmentsPaid, (6) for EMI, amount equal to the
installment amount else EmiAmountMismatch — short-circuiting on the
first failure (firstError); a failed request returns exactly that error
and a passing request succeeds, and an error leaves the persisted loan
unchanged. -/
theorem C8_validation_order_amended (l : Loan) (t : PaymentType) (a : Int) :
    (∀ e, firstError l t a = some e → makePayment l t a = .error e) ∧
    (firstError l t a = none → makePayment l t a = .ok (applyResult l t a)) := by
  constructor
  · intro e he
    rw [makePayment_eq, he]
  · intro he
    rw [makePayment_eq, he]

/-- Witness for C8 (amended): on a COMPLETED loan the first failing
check is the status check, and the pipeline surfaces LoanInactive. -/
theorem C8_validation_order_amended_witness :
    makePayment (runPay (mkLoan 10000 1 0) [(.LUMP_SUM, 10000)]) .EMI 5 =
      .error .LoanInactive :=
  (C8_validation_order_amended (runPay (mkLoan 10000 1 0) [(.LUMP_SUM, 10000)])
    .EMI 5).1 .LoanInactive (by decide)

/-- Claim C9: 0 <= installments_paid <= total_installments holds after
loan creation and is preserved by every successfully applied payment
(EMI increment, lump-sum increment and the completion clamp all keep
the counter within bounds). -/
theorem C9_emis_paid_bounds :
    (∀ P N R : Int, ∀ l : Loan, createLoan P N R = .ok l →
      0 ≤ l.emisPaid ∧ l.emisPaid ≤ l.totalEmis) ∧
    (∀ (l : Loan) (t : PaymentType) (a : Int) (l2 : Loan) (b : Int),
      0 ≤ l.emisPaid → l.emisPaid ≤ l.totalEmis →
      makePayment l t a = .ok (l2, b) →
      0 ≤ l2.emisPaid ∧ l2.emisPaid ≤ l2.totalEmis) := by
  constructor
  · intro P N R l h
    unfold createLoan at h
    cases hc : cleanLoan P N R with
    | error e =>
      rw [hc] at h
      exact Except.noConfusion h
    | ok u =>
      rw [hc] at h
      have hl := Except.ok.inj h
      unfold cleanLoan at hc
      split_ifs at hc with g1 g2 g3
      have hN : 0 ≤ N := by
        by_contra hneg
        exact g2 ⟨by omega, by omega⟩
      rw [← hl]
      refine ⟨?_, ?_⟩
      · show (0 : Int) ≤ 0
        exact le_refl 0
      · show (0 : Int) ≤ N * 12
        omega
  · intro l t a l2 b h0 h1 h
    obtain ⟨-, -, -, -, -, -, -, -, -, -, -, hte, -, hres⟩ :=
      makePayment_ok l t a l2 b h
    by_cases hc : l.remainingBalance - a ≤ 1
    · rw [if_pos hc] at hres
      obtain ⟨-, -, hep, -⟩ := hres
      rw [hep, hte]
      omega
    · rw [if_neg hc] at hres
      obtain ⟨-, -, hep, -⟩ := hres
      rw [hep, hte]
      cases t with
      | EMI =>
        simp only [newEmis]
        omega
      | LUMP_SUM =>
        simp only [newEmis]
        split_ifs with hm
        · have hdiv : 0 ≤ a / l.monthlyEmi := by
            obtain ⟨ha1, -⟩ := makePayment_ok l .LUMP_SUM a l2 b h
            exact Int.ediv_nonneg (by omega) (by omega)
          omega
        · omega

/-- Witness for C9: the bounds hold on the freshly created 100.00 loan
and after one EMI payment of 8.33 on it. -/
theorem C9_emis_paid_bounds_witness :
    (0 ≤ (mkLoan 10000 1 0).emisPaid ∧
      (mkLoan 10000 1 0).emisPaid ≤ (mkLoan 10000 1 0).totalEmis) ∧
    (0 ≤ (runPay (mkLoan 10000 1 0) [(.EMI, 833)]).emisPaid ∧
      (runPay (mkLoan 10000 1 0) [(.EMI, 833)]).emisPaid ≤
        (runPay (mkLoan 10000 1 0) [(.EMI, 833)]).totalEmis) :=
  ⟨C9_emis_paid_bounds.1 10000 1 0 (mkLoan 10000 1 0) (by decide),
   C9_emis_paid_bounds.2 (mkLoan 10000 1 0) .EMI 833
     (runPay (mkLoan 10000 1 0) [(.EMI, 833)]) 9167
     (by decide) (by decide) (by decide)⟩

/-- Claim C10 (amended): the installment-count division of a lump-sum
payment runs only under the guard monthly_emi > 0; when the installment
amount is not positive, a successfully applied lump-sum payment whose
post-payment balance exceeds the 0.01 completion tolerance leaves
installments_paid unchanged (no division by zero occurs); if such a
payment completes the loan, the completion clamp still forces
installments_paid to total_installments. -/
theorem C10_zero_emi_guard_amended (l : Loan) (a : Int) (l2 : Loan) (b : Int)
    (hemi : l.monthlyEmi ≤ 0)
    (h : makePayment l .LUMP_SUM a = .ok (l2, b))
    (hnc : 1 < l.remainingBalance - a) :
    l2.emisPaid = l.emisPaid := by
  obtain ⟨-, -, -, -, -, -, -, -, -, -, -, -, -, hres⟩ :=
    makePayment_ok l .LUMP_SUM a l2 b h
  rw [if_neg (by omega)] at hres
  obtain ⟨-, -, hep, -⟩ := hres
  rw [hep]
  unfold newEmis
  rw [if_neg (by omega)]

/-- Witness for C10 (amended): the loan with principal 0.59, period 10
years, rate 0 has installment amount 0.00; a lump sum of 0.10 leaves
installments_paid unchanged at 0. -/
theorem C10_zero_emi_guard_amended_witness :
    (runPay (mkLoan 59 10 0) [(.LUMP_SUM, 10)]).emisPaid =
      (mkLoan 59 10 0).emisPaid :=
  C10_zero_emi_guard_amended (mkLoan 59 10 0) 10
    (runPay (mkLoan 59 10 0) [(.LUMP_SUM, 10)]) 49
    (by decide) (by decide) (by decide)
